import Mathlib

/-!
Verification of the `dineniso5167` core module (`src/dineniso5167/core.py`).

The module computes the volume flow rate of air through a flange-mounted
orifice plate following DIN EN ISO 5167.  The numeric code is embedded
shallowly over the real numbers:

* scalar floats become `ℝ`; the array-valued differential pressure `dp`
  (and the array quantities derived from it element-wise: `p2`, `eps`,
  `eps_uncertainty`, the flow rates) become `List ℝ`;
* the solver is modelled for scalar pressure `p1` and scalar temperature
  `T` (the array temperature branch of the normalisation, lines 255-257,
  is modelled standalone as `normalizeT_array`);
* Python `raise` becomes `Except.error`; `warnings.warn` inside
  `compute_beta` is modelled as a list of advisory strings carried next
  to the returned value (the caller discards them, as the Python caller
  ignores warnings);
* `x ** 0.8` and friends become `Real.rpow`, `np.sqrt` becomes
  `Real.sqrt`, `np.exp` becomes `Real.exp`, `np.sign` becomes
  `Real.sign`;
* `np.mean` of a list is `npMean`; on scalars `np.mean` is the identity
  and is dropped; `np.nanmean` coincides with `npMean` in a model
  without NaN values;
* the `while` loop of `compute_volume_flow_rate` (lines 287-298) becomes
  the well-founded recursion `loopGo`, whose argument `j` mirrors the
  Python iteration counter; the variables that Python assigns only
  inside the loop body (`vfr_value`, `C`, ...) are carried as an
  `Option IterOut`, `none` meaning "never assigned", so that the
  `NameError` raised at line 300 when the loop body never ran is
  represented faithfully.
-/

noncomputable section

namespace DinEnIso5167

/-- specific gas constant of dry air, `Rs` (core.py line 9). -/
def Rs : ℝ := 287.058

/-- specific gas constant of vapour, `Rd` (core.py line 10). -/
def Rd : ℝ := 461.523

/-- offset between Celsius and Kelvin (core.py line 12). -/
def T0_Kelvin : ℝ := 273.15

/-- assumed vapour pressure in Pa (core.py line 13). -/
def VAPOR_PRESSURE : ℝ := 2300

/-- dynamic viscosity of air, `compute_mu_air` (core.py lines 18-21). -/
def compute_mu_air (T : ℝ) : ℝ := 1.458e-6 * T ^ (1.5 : ℝ) / (T + 110.4)

/-- density by the ideal gas law, `compute_density` (core.py lines 24-49). -/
def compute_density (p T phi pv : ℝ) : ℝ :=
  let Rf := Rs / (1 - phi * pv / p * (1 - Rs / Rd))
  p / (Rf * T)

/-- Celsius to Kelvin, `Cel2Kel` (core.py lines 52-58). -/
def Cel2Kel (T : ℝ) : ℝ := T + T0_Kelvin

/-- Kelvin to Celsius, `Kel2Cel` (core.py lines 61-73). -/
def Kel2Cel (T : ℝ) : ℝ := T - T0_Kelvin

/-- Reynolds number, `compute_reynolds_number` (core.py lines 76-77). -/
def compute_reynolds_number (u d nu : ℝ) : ℝ := u * d / nu

/-- arithmetic mean of a list, `np.mean` / `np.nanmean` on NaN-free data. -/
def npMean (xs : List ℝ) : ℝ := xs.sum / xs.length

/-- diameter ratio with bound checks, `compute_beta` (core.py lines 80-137).
`Except.error` models the two `raise` statements; the advisory
`warnings.warn` calls are returned as a list of strings next to `beta`.
The early `return beta` after each triggered advisory is preserved, so at
most one advisory is ever reported, in the source's order. -/
def compute_beta (d D : ℝ) (unit : String) (mounting_type : String := "flange") :
    Except String (ℝ × List String) :=
  if D ≤ d then
    .error "Outer diameter D of pipe is smaller than inner diameter of orifice!"
  else
    let beta := d / D
    let d' := if unit = "m" then d * 1000 else d
    let D' := if unit = "m" then D * 1000 else D
    if mounting_type ≠ "flange" then
      .error "Only mounting type flange is implemented in this version!"
    else if d' ≤ 12.5 then
      .ok (beta, ["Inner orifice diameter is smaller than 12.5 mm!"])
    else if D' < 50 ∨ D' > 1000 then
      .ok (beta, ["Outer pipe diameter is outside of the valid range of 50 to 1000 mm!"])
    else if 0.10 ≤ beta then
      if beta ≤ 0.75 then .ok (beta, [])
      else .ok (beta, ["Parameter for beta is outside of the valid range 0.1 to 0.75!"])
    else .ok (beta, ["Parameter for beta is outside of the valid range 0.1 to 0.75!"])

/-- flow coefficient `C` and its uncertainty, `compute_flow_coefficient`
(core.py lines 140-188).  `Re` is scalar in the scalar-pipeline model, so
`np.mean(Re)` at line 184 is `Re` itself. -/
def compute_flow_coefficient (beta D Re : ℝ) : ℝ × ℝ :=
  let L_1 : ℝ := 25.4 / 1000 / D
  let L_s2 : ℝ := 25.4 / 1000 / D
  let M_s2 : ℝ := 2 * L_s2 / (1 - beta)
  let A : ℝ := (19000 * beta / Re) ^ (0.8 : ℝ)
  let C0 : ℝ := 0.5961 + 0.0261 * beta ^ 2 - 0.216 * beta ^ 8
      + 0.000521 * (10 ^ 6 * beta / Re) ^ (0.7 : ℝ)
      + (0.0188 + 0.0063 * A) * beta ^ (3.5 : ℝ) * ((10 ^ 6 : ℝ) / Re) ^ (0.3 : ℝ)
      + (0.043 + 0.080 * Real.exp (-10 * L_1) - 0.123 * Real.exp (-7 * L_1))
        * (1 - 0.11 * A) * (beta ^ 4 / (1 - beta ^ 4))
      - 0.031 * (M_s2 - 0.8 * M_s2 ^ (1.1 : ℝ)) * beta ^ (1.3 : ℝ)
  let C : ℝ := if D < 0.7112 then C0 + 0.011 * (0.75 - beta) * (2.8 - D / 0.0254) else C0
  let u0 : ℝ :=
    if 0.1 ≤ beta ∧ beta < 0.2 then (0.7 - beta) / 100
    else if 0.2 ≤ beta ∧ beta ≤ 0.6 then 0.5 / 100
    else if 0.6 < beta ∧ beta ≤ 0.77 then (1.667 * beta - 0.5) / 100
    else 0
  let u1 : ℝ := if 0 < u0 then (if 0.5 < beta ∧ Re < 10000 then u0 + 0.5 / 100 else u0) else u0
  let u2 : ℝ := if D < 0.7112 then u1 + 0.9 * (0.75 - beta) * (2.8 - D / 25.4) / 100 else u1
  (C, u2)

/-- raw volume flow rate, `_vfr` (core.py lines 191-207).  `np.sum(dp < 0) > 0`
is the count of negative entries of `dp`; `eps` and `dp` are same-length
lists combined element-wise. -/
def _vfr (C_0 beta d : ℝ) (eps dp : List ℝ) (rho : ℝ) : List ℝ :=
  if 0 < dp.countP (fun x => decide (x < 0)) then
    List.zipWith
      (fun e x => C_0 / Real.sqrt (1 - beta ^ 4) * e * Real.pi / 4 * d ^ 2 *
        Real.sqrt (2 * |x| / rho) * Real.sign x) eps dp
  else
    List.zipWith
      (fun e x => C_0 / Real.sqrt (1 - beta ^ 4) * e * Real.pi / 4 * d ^ 2 *
        Real.sqrt (2 * x / rho)) eps dp

/-- expansion number and its relative uncertainty, `compute_expansion_number`
(core.py lines 210-215), for one element of the pressure arrays. -/
def compute_expansion_number (beta p1 p2 kappa : ℝ) : ℝ × ℝ :=
  (1 - (0.351 + 0.256 * beta ^ 4 + 0.93 * beta ^ 8) * (1 - (p2 / p1) ^ ((1 : ℝ) / kappa)),
   3.5 * (p2 - p1) / kappa / p1 / 100)

/-- the quantities one pass of the solver's `while` body assigns
(core.py lines 288-295), plus `C_guess0`, a bookkeeping field recording the
coefficient guess the pass started from (used only to state theorems). -/
structure IterOut where
  vfr_value : List ℝ
  vfr_value_min : List ℝ
  vfr_value_max : List ℝ
  C : ℝ
  C_err : ℝ
  residuum : ℝ
  C_guess0 : ℝ

/-- the loop variables of `compute_volume_flow_rate` after the `while` loop:
coefficient guess, residual, iteration counter `j`, and the body-assigned
variables (`none` when the body never executed). -/
structure IterState where
  C_guess : ℝ
  residuum : ℝ
  j : ℕ
  last : Option IterOut

/-- convergence threshold `eps_res = 10 ** (-4)` (core.py line 285). -/
def eps_res : ℝ := 10 ^ (-4 : ℤ)

/-- element-wise expansion numbers for `p2 = p1 + dp` (core.py lines 261-263),
first components of `compute_expansion_number`. -/
def epsListOf (beta p1 kappa : ℝ) (dp : List ℝ) : List ℝ :=
  (dp.map (fun x => p1 + x)).map (fun q => (compute_expansion_number beta p1 q kappa).1)

/-- element-wise relative expansion-number uncertainties (core.py lines 261-263),
second components of `compute_expansion_number`. -/
def uncListOf (beta p1 kappa : ℝ) (dp : List ℝ) : List ℝ :=
  (dp.map (fun x => p1 + x)).map (fun q => (compute_expansion_number beta p1 q kappa).2)

/-- one pass of the solver's `while` body (core.py lines 288-295): flow rate
from the current guess, Reynolds number from its mean, new flow coefficient
and uncertainty, then the min/max flow rates from `C_guess ± C_err` and
`eps ± eps_uncertainty`, and the new residual `|C - C_guess|`. -/
def iterStep (beta d_or d_pi : ℝ) (epsL uncL dp : List ℝ) (rho nu A_D : ℝ)
    (C_guess : ℝ) : IterOut :=
  let vfr_value := _vfr C_guess beta d_or epsL dp rho
  let Re := compute_reynolds_number (npMean vfr_value / A_D) d_pi nu
  let Cc := compute_flow_coefficient beta d_pi Re
  let vfr_value_max :=
    _vfr (C_guess + Cc.2) beta d_or (List.zipWith (fun a b => a + b) epsL uncL) dp rho
  let vfr_value_min :=
    _vfr (C_guess - Cc.2) beta d_or (List.zipWith (fun a b => a - b) epsL uncL) dp rho
  ⟨vfr_value, vfr_value_min, vfr_value_max, Cc.1, Cc.2, |Cc.1 - C_guess|, C_guess⟩

/-- the solver's `while` loop (core.py lines 285-298): while the (scalar)
residual exceeds `eps_res`, run the body, update `C_guess`, `residuum` and
`j`, and break once `j` exceeds 999.  Recursion is on `1000 - j`, which the
break condition makes well-founded exactly as the Python counter does. -/
def loopGo (step : ℝ → IterOut) (C_guess residuum : ℝ) (j : ℕ)
    (last : Option IterOut) : IterState :=
  if residuum ≤ eps_res then ⟨C_guess, residuum, j, last⟩
  else if 999 < j + 1 then
    ⟨(step C_guess).C, (step C_guess).residuum, j + 1, some (step C_guess)⟩
  else loopGo step (step C_guess).C (step C_guess).residuum (j + 1) (some (step C_guess))
  termination_by 1000 - j
  decreasing_by simp_wf; omega

/-- scalar-temperature normalisation (core.py lines 252-254): a temperature
below 100 is taken as Celsius and converted to Kelvin. -/
def normalizeT (T : ℝ) : ℝ := if T < 100 then Cel2Kel T else T

/-- array-temperature normalisation (core.py lines 255-257): when the mean of
the array is below 100, the whole array is converted, otherwise the whole
array is left untouched.  This is the array branch of the same lines the
scalar `normalizeT` models; the solver below is modelled for scalar `T`. -/
def normalizeT_array (T : List ℝ) : List ℝ :=
  if npMean T < 100 then T.map Cel2Kel else T

/-- the loop variables of `compute_volume_flow_rate` after its `while` loop,
for a given diameter ratio `beta`: the preparatory computations of core.py
lines 248-263 followed by the loop of lines 285-298. -/
def cvfr_state (beta : ℝ) (dp : List ℝ) (d_orifice d_pipe : ℝ)
    (length_unit : String) (p1 T phi kappa C_guess residuum : ℝ) : IterState :=
  let d_or := if length_unit = "mm" then d_orifice / 1000 else d_orifice
  let d_pi := if length_unit = "mm" then d_pipe / 1000 else d_pipe
  let A_D := d_or ^ 2 / 4 * Real.pi
  let T' := normalizeT T
  let rho_air := compute_density p1 T' phi VAPOR_PRESSURE
  let mu_air := compute_mu_air T'
  let nu_air := mu_air / rho_air
  let epsL := epsListOf beta p1 kappa dp
  let uncL := uncListOf beta p1 kappa dp
  loopGo (iterStep beta d_or d_pi epsL uncL dp rho_air nu_air A_D) C_guess residuum 0 none

/-- everything `compute_volume_flow_rate` does after `compute_beta` returned:
run the loop, then compute `dp_loss` (core.py lines 300-301) from the loop's
`C` and return the tuple (line 314).  When the loop body never ran, `C` was
never assigned and line 300 raises `NameError`, modelled as `Except.error`. -/
def cvfr_rest (beta : ℝ) (dp : List ℝ) (d_orifice d_pipe : ℝ)
    (length_unit : String) (p1 T phi kappa C_guess residuum : ℝ) :
    Except String (List ℝ × List ℝ × List ℝ × List ℝ) :=
  match (cvfr_state beta dp d_orifice d_pipe length_unit p1 T phi kappa C_guess residuum).last with
  | none => .error "NameError: name C is not defined"
  | some out =>
    .ok (out.vfr_value, out.vfr_value_min, out.vfr_value_max,
      dp.map (fun x =>
        (Real.sqrt (1 - beta ^ 4 * (1 - out.C ^ 2)) - out.C * beta ^ 2) /
        (Real.sqrt (1 - beta ^ 4 * (1 - out.C ^ 2)) + out.C * beta ^ 2) * x))

/-- the solver `compute_volume_flow_rate` (core.py lines 218-314), modelled
for array `dp` and scalar `p1`, `T`: compute `beta` (propagating its raised
errors), then the rest.  The advisory warnings of `compute_beta` are
discarded, as the Python caller ignores them. -/
def compute_volume_flow_rate (dp : List ℝ) (d_orifice d_pipe : ℝ)
    (length_unit : String) (p1 T : ℝ) (phi : ℝ := 0) (kappa : ℝ := 1.4)
    (C_guess : ℝ := 0.62) (residuum : ℝ := 0.1) :
    Except String (List ℝ × List ℝ × List ℝ × List ℝ) :=
  match compute_beta d_orifice d_pipe length_unit with
  | .error e => .error e
  | .ok (beta, _) =>
    cvfr_rest beta dp d_orifice d_pipe length_unit p1 T phi kappa C_guess residuum

/-! ## Shared lemmas about `compute_beta` -/

/-- the diameter check of core.py line 112 fires first, for any unit and any
mounting type. -/
lemma compute_beta_error_of_le (d D : ℝ) (unit m : String) (h : D ≤ d) :
    compute_beta d D unit m =
      Except.error "Outer diameter D of pipe is smaller than inner diameter of orifice!" := by
  unfold compute_beta
  rw [if_pos h]

/-- with `d < D` and flange mounting, every path of `compute_beta` returns
`d / D`, whatever the unit and whatever advisories fire. -/
lemma compute_beta_ok_of_lt (d D : ℝ) (unit : String) (h : d < D) :
    ∃ w, compute_beta d D unit "flange" = Except.ok (d / D, w) := by
  unfold compute_beta
  rw [if_neg (not_le.2 h)]
  simp only [ne_eq, not_true_eq_false, if_false]
  split_ifs <;> exact ⟨_, rfl⟩

/-! ## Shared lemmas about the solver loop -/

/-- started at `j ≤ 999`, the loop counter never passes 1000: the body breaks
as soon as `j` exceeds 999. -/
lemma loopGo_j_le (step : ℝ → IterOut) :
    ∀ (n j : ℕ) (C r : ℝ) (last : Option IterOut), 1000 - j ≤ n → j ≤ 999 →
      (loopGo step C r j last).j ≤ 1000 := by
  intro n
  induction n with
  | zero => intro j C r last hn hj; omega
  | succ n ih =>
    intro j C r last hn hj
    rw [loopGo]
    by_cases hc : r ≤ eps_res
    · rw [if_pos hc]
      exact hj.trans (by norm_num)
    · rw [if_neg hc]
      by_cases hb : 999 < j + 1
      · rw [if_pos hb]
        show j + 1 ≤ 1000
        omega
      · rw [if_neg hb]
        exact ih (j + 1) _ _ _ (by omega) (by omega)

/-- whenever the loop ends with a residual above `eps_res` (the
non-convergence exit), the body ran at least once, so the body-assigned
variables are present. -/
lemma loopGo_some_of_residuum (step : ℝ → IterOut) :
    ∀ (n j : ℕ) (C r : ℝ) (last : Option IterOut), 1000 - j ≤ n →
      eps_res < (loopGo step C r j last).residuum →
      (loopGo step C r j last).last.isSome = true := by
  intro n
  induction n with
  | zero =>
    intro j C r last hn hres
    rw [loopGo] at hres ⊢
    by_cases hc : r ≤ eps_res
    · rw [if_pos hc] at hres
      exact absurd hres (not_lt.2 hc)
    · have hb : 999 < j + 1 := by omega
      rw [if_neg hc, if_pos hb]
      rfl
  | succ n ih =>
    intro j C r last hn hres
    rw [loopGo] at hres ⊢
    by_cases hc : r ≤ eps_res
    · rw [if_pos hc] at hres
      exact absurd hres (not_lt.2 hc)
    · rw [if_neg hc] at hres ⊢
      by_cases hb : 999 < j + 1
      · rw [if_pos hb]
        rfl
      · rw [if_neg hb] at hres ⊢
        exact ih (j + 1) _ _ _ (by omega) hres

/-- every body-assigned record the loop can end with is the body evaluated at
the coefficient guess recorded in its `C_guess0` field. -/
lemma loopGo_last_shape (step : ℝ → IterOut) (hstep : ∀ c, (step c).C_guess0 = c) :
    ∀ (n j : ℕ) (C r : ℝ) (last : Option IterOut), 1000 - j ≤ n →
      (∀ out, last = some out → out = step out.C_guess0) →
      ∀ out, (loopGo step C r j last).last = some out → out = step out.C_guess0 := by
  intro n
  induction n with
  | zero =>
    intro j C r last hn hinv out
    rw [loopGo]
    by_cases hc : r ≤ eps_res
    · rw [if_pos hc]
      exact hinv out
    · have hb : 999 < j + 1 := by omega
      rw [if_neg hc, if_pos hb]
      intro h
      have h' : out = step C := by
        have := h
        simpa using this.symm
      rw [h', hstep]
  | succ n ih =>
    intro j C r last hn hinv out
    rw [loopGo]
    by_cases hc : r ≤ eps_res
    · rw [if_pos hc]
      exact hinv out
    · rw [if_neg hc]
      by_cases hb : 999 < j + 1
      · rw [if_pos hb]
        intro h
        have h' : out = step C := by
          have := h
          simpa using this.symm
        rw [h', hstep]
      · rw [if_neg hb]
        refine ih (j + 1) _ _ _ (by omega) ?_ out
        intro o ho
        have h' : o = step C := by simpa using ho.symm
        rw [h', hstep]

/-! ## Claim theorems -/

/-- C7: for flange mounting, `compute_beta` raises exactly when `D ≤ d`, and
for every `D > d > 0` it returns `d / D` computed from the original values,
for any unit argument and also when advisory bounds are violated (the
advisories only change the warning list `w`). -/
theorem claim7_beta_flange (d D : ℝ) (unit : String) (_hd : 0 < d) :
    (D ≤ d → compute_beta d D unit "flange" =
      Except.error "Outer diameter D of pipe is smaller than inner diameter of orifice!") ∧
    (d < D → ∃ w, compute_beta d D unit "flange" = Except.ok (d / D, w)) :=
  ⟨fun h => compute_beta_error_of_le d D unit "flange" h,
   fun h => compute_beta_ok_of_lt d D unit h⟩

/-- C7 witness: the error case at `d = 50, D = 40` and the ok case at
`d = 50, D = 100` (advisory-free), both in millimetres. -/
theorem claim7_beta_flange_witness :
    compute_beta 50 40 "mm" "flange" =
      Except.error "Outer diameter D of pipe is smaller than inner diameter of orifice!" ∧
    ∃ w, compute_beta 50 100 "mm" "flange" = Except.ok ((50 : ℝ) / 100, w) :=
  ⟨(claim7_beta_flange 50 40 "mm" (by norm_num)).1 (by norm_num),
   (claim7_beta_flange 50 100 "mm" (by norm_num)).2 (by norm_num)⟩

/-- C8: with a mounting type other than `"flange"`, `compute_beta` always
raises: the diameter error when `D ≤ d`, the not-implemented error
otherwise; it never returns a beta value. -/
theorem claim8_mounting_type (d D : ℝ) (unit m : String) (hm : m ≠ "flange") :
    ∃ e, compute_beta d D unit m = Except.error e := by
  by_cases h : D ≤ d
  · exact ⟨_, compute_beta_error_of_le d D unit m h⟩
  · refine ⟨"Only mounting type flange is implemented in this version!", ?_⟩
    unfold compute_beta
    rw [if_neg h]
    simp only [ne_eq, hm, not_false_eq_true, if_true]

/-- C8 witness: corner mounting at valid diameters still raises. -/
theorem claim8_mounting_type_witness :
    ∃ e, compute_beta 50 100 "mm" "corner" = Except.error e :=
  claim8_mounting_type 50 100 "mm" "corner" (by decide)

/-- C4 counterexample: at `beta = 0.8 > 0.77` the piecewise base uncertainty
is `0`, and then the guard `if uncertainty > 0` (core.py line 183) prevents
the claimed `0.5/100` addition even though `beta > 0.5` and `Re < 10000`:
the uncertainty stays `0`, not `0 + 0.5/100`. -/
theorem claim4_counterexample :
    (compute_flow_coefficient 0.8 1 5000).2 = 0 ∧
    ¬ (compute_flow_coefficient 0.8 1 5000).2 = 0 + 0.5 / 100 := by
  have h : (compute_flow_coefficient 0.8 1 5000).2 = 0 := by
    simp only [compute_flow_coefficient]
    norm_num
  exact ⟨h, by rw [h]; norm_num⟩

/-- C4 amended: the `0.5/100` Reynolds addition happens only when the
piecewise base value is positive; for `0.5 < beta ≤ 0.77` (where the base is
positive) and mean `Re < 10000` and `D ≥ 0.7112` (no small-bore term) the
returned uncertainty is exactly base + `0.5/100`; for `beta > 0.77` the base
is `0` and nothing is added (see the counterexample). -/
theorem claim4_uncertainty_low_re (beta D Re : ℝ)
    (h1 : 0.5 < beta) (h2 : beta ≤ 0.77) (h3 : Re < 10000) (h4 : 0.7112 ≤ D) :
    (compute_flow_coefficient beta D Re).2 =
      (if beta ≤ 0.6 then 0.5 / 100 else (1.667 * beta - 0.5) / 100) + 0.5 / 100 := by
  simp only [compute_flow_coefficient]
  have hb1 : ¬ (0.1 ≤ beta ∧ beta < 0.2) := by rintro ⟨-, hb⟩; linarith
  have hD : ¬ D < 0.7112 := not_lt.2 h4
  by_cases h6 : beta ≤ 0.6
  · rw [if_neg hb1, if_pos (show 0.2 ≤ beta ∧ beta ≤ 0.6 from ⟨by linarith, h6⟩),
      if_pos (show (0:ℝ) < 0.5 / 100 by norm_num),
      if_pos (show 0.5 < beta ∧ Re < 10000 from ⟨h1, h3⟩), if_neg hD, if_pos h6]
  · have h6' : 0.6 < beta := not_le.1 h6
    rw [if_neg hb1, if_neg (show ¬ (0.2 ≤ beta ∧ beta ≤ 0.6) by rintro ⟨-, hb⟩; exact h6 hb),
      if_pos (show 0.6 < beta ∧ beta ≤ 0.77 from ⟨h6', h2⟩),
      if_pos (show (0:ℝ) < (1.667 * beta - 0.5) / 100 by linarith),
      if_pos (show 0.5 < beta ∧ Re < 10000 from ⟨h1, h3⟩), if_neg hD, if_neg h6]

/-- C4 witness: `beta = 0.65`, `D = 1`, `Re = 5000` gives base
`(1.667*0.65 - 0.5)/100` plus the `0.5/100` addition. -/
theorem claim4_uncertainty_low_re_witness :
    (compute_flow_coefficient 0.65 1 5000).2 =
      (if (0.65 : ℝ) ≤ 0.6 then 0.5 / 100 else (1.667 * 0.65 - 0.5) / 100) + 0.5 / 100 :=
  claim4_uncertainty_low_re 0.65 1 5000 (by norm_num) (by norm_num) (by norm_num) (by norm_num)

/-- C5: at `beta = 0.5`, `D = 0.1` m, `Re = 20000` the small-bore uncertainty
term added by core.py line 187 divides the meter-valued `D` by `25.4`
(`0.9*(0.75-beta)*(2.8 - D/25.4)/100`), not by `0.0254` as the symmetric `C`
correction of line 172 does, so the uncertainty is not the claimed symmetric
value. -/
theorem claim5_smallbore_scaling :
    (compute_flow_coefficient 0.5 0.1 20000).2 =
      0.5 / 100 + 0.9 * (0.75 - 0.5) * (2.8 - 0.1 / 25.4) / 100 ∧
    ¬ (compute_flow_coefficient 0.5 0.1 20000).2 =
      0.5 / 100 + 0.9 * (0.75 - 0.5) * (2.8 - 0.1 / 0.0254) / 100 := by
  have h : (compute_flow_coefficient 0.5 0.1 20000).2 =
      0.5 / 100 + 0.9 * (0.75 - 0.5) * (2.8 - 0.1 / 25.4) / 100 := by
    simp only [compute_flow_coefficient]
    norm_num
  exact ⟨h, by rw [h]; norm_num⟩

/-- C6 counterexample: for the array input `[0, 150]` the mean is `75 < 100`,
so core.py lines 255-257 convert the whole array: the element `150 ≥ 100` is
not left unchanged as the claim requires, it becomes `423.15`. -/
theorem claim6_counterexample :
    normalizeT_array [0, 150] ≠ [(273.15 : ℝ), 150] := by
  have h1 : normalizeT_array [0, 150] = [(273.15 : ℝ), 423.15] := by
    unfold normalizeT_array
    rw [if_pos (by norm_num [npMean] : npMean [(0 : ℝ), 150] < 100)]
    norm_num [Cel2Kel, T0_Kelvin]
  rw [h1]
  simp only [ne_eq, List.cons.injEq, not_and]
  intro _ h
  norm_num at h

/-- C6 amended: a scalar temperature below 100 is converted to Kelvin and one
at or above 100 is used unchanged; an array temperature is converted as a
whole exactly when its mean is below 100 (individual elements are not
treated separately). -/
theorem claim6_temperature_normalization (T : ℝ) (L : List ℝ) :
    (T < 100 → normalizeT T = Cel2Kel T) ∧
    (100 ≤ T → normalizeT T = T) ∧
    (npMean L < 100 → normalizeT_array L = L.map Cel2Kel) ∧
    (100 ≤ npMean L → normalizeT_array L = L) :=
  ⟨fun h => if_pos h, fun h => if_neg (not_lt.2 h),
   fun h => if_pos h, fun h => if_neg (not_lt.2 h)⟩

/-- C6 witness: scalar 25 °C is converted, scalar 150 K is kept, the array
`[0, 150]` (mean 75) is converted as a whole, the array `[200, 300]`
(mean 250) is kept as a whole. -/
theorem claim6_temperature_normalization_witness :
    normalizeT 25 = Cel2Kel 25 ∧ normalizeT 150 = 150 ∧
    normalizeT_array [0, 150] = List.map Cel2Kel [0, 150] ∧
    normalizeT_array [200, 300] = [200, 300] :=
  ⟨(claim6_temperature_normalization 25 []).1 (by norm_num),
   (claim6_temperature_normalization 150 []).2.1 (by norm_num),
   (claim6_temperature_normalization 0 [0, 150]).2.2.1 (by norm_num [npMean]),
   (claim6_temperature_normalization 0 [200, 300]).2.2.2 (by norm_num [npMean])⟩

/-- `zipWith` congruence in the second list only: when the two functions
agree on every element of the second list, the zips agree (no length
assumption). -/
lemma zipWith_congr_right {f g : ℝ → ℝ → ℝ} : ∀ (l₁ l₂ : List ℝ),
    (∀ x ∈ l₂, ∀ e, f e x = g e x) →
    List.zipWith f l₁ l₂ = List.zipWith g l₁ l₂ := by
  intro l₁
  induction l₁ with
  | nil => intro l₂ h; simp
  | cons e es ih =>
    intro l₂ h
    rcases l₂ with - | ⟨x, xs⟩
    · simp
    · simp only [List.zipWith_cons_cons]
      rw [h x (List.mem_cons_self x xs) e,
        ih xs (fun y hy e' => h y (List.mem_cons_of_mem x hy) e')]

/-- the sign convention of `_vfr` in isolation: with the coefficient and the
expansion numbers held fixed, a uniformly negative `dp` yields exactly the
negation of the `|dp|` evaluation.  The solver does not inherit this law
because `eps` is recomputed from `p2 = p1 + dp` and because the iteration
behaves differently for negative flow (see C2). -/
lemma _vfr_neg_dp (C0 beta d rho : ℝ) : ∀ (eps dp : List ℝ),
    0 < dp.length → (∀ x ∈ dp, x < 0) →
    _vfr C0 beta d eps dp rho =
      (_vfr C0 beta d eps (dp.map (fun x => |x|)) rho).map (fun y => -y) := by
  intro eps dp hne hall
  have hpos : 0 < dp.countP (fun x => decide (x < 0)) := by
    rcases dp with - | ⟨a, l⟩
    · simp at hne
    · have ha : decide (a < 0) = true := by
        simpa using hall a (List.mem_cons_self a l)
      rw [List.countP_cons, if_pos ha]
      omega
  have hzero : (dp.map (fun x => |x|)).countP (fun x => decide (x < 0)) = 0 := by
    rw [List.countP_eq_zero]
    intro a ha
    obtain ⟨b, hb, rfl⟩ := List.mem_map.1 ha
    simp
  unfold _vfr
  rw [if_pos hpos, if_neg (by rw [hzero]; exact lt_irrefl 0)]
  rw [List.zipWith_map_right, List.map_zipWith]
  refine zipWith_congr_right eps dp ?_
  intro x hx e
  rw [Real.sign_of_neg (hall x hx), mul_neg_one]

/-- C2: at the failing input the expansion number is computed from
`p2 = p1 + dp`, so the negative-`dp` call and the `|dp|` call feed different
expansion numbers into the flow-rate formula (`0.9907...` versus
`1.0092...` here, with `beta = 0.5`, `p1 = 200000`, `dp = ∓5000`,
`kappa = 1`): the solver's output is not sign-symmetric in `dp`. -/
theorem claim2_eps_asymmetry :
    (compute_expansion_number 0.5 200000 195000 1).1 ≠
      (compute_expansion_number 0.5 200000 205000 1).1 := by
  unfold compute_expansion_number
  have e1 : ((1 : ℝ) / 1) = 1 := by norm_num
  rw [e1, Real.rpow_one, Real.rpow_one]
  norm_num

/-- the record the solver's loop ends with is one pass of the body (at the
coefficient guess recorded in `C_guess0`) applied to the derived quantities
of the preparatory code, so the returned tuple is the final iteration's
`vfr_value`, `vfr_value_min`, `vfr_value_max`. -/
lemma cvfr_state_last_shape (beta : ℝ) (dp : List ℝ) (d_orifice d_pipe : ℝ)
    (length_unit : String) (p1 T phi kappa C_guess residuum : ℝ) :
    ∀ out,
      (cvfr_state beta dp d_orifice d_pipe length_unit p1 T phi kappa C_guess residuum).last
        = some out →
      out = iterStep beta
        (if length_unit = "mm" then d_orifice / 1000 else d_orifice)
        (if length_unit = "mm" then d_pipe / 1000 else d_pipe)
        (epsListOf beta p1 kappa dp) (uncListOf beta p1 kappa dp) dp
        (compute_density p1 (normalizeT T) phi VAPOR_PRESSURE)
        (compute_mu_air (normalizeT T) /
          compute_density p1 (normalizeT T) phi VAPOR_PRESSURE)
        ((if length_unit = "mm" then d_orifice / 1000 else d_orifice) ^ 2 / 4 * Real.pi)
        out.C_guess0 := by
  intro out h
  have hstep : ∀ c, (iterStep beta
      (if length_unit = "mm" then d_orifice / 1000 else d_orifice)
      (if length_unit = "mm" then d_pipe / 1000 else d_pipe)
      (epsListOf beta p1 kappa dp) (uncListOf beta p1 kappa dp) dp
      (compute_density p1 (normalizeT T) phi VAPOR_PRESSURE)
      (compute_mu_air (normalizeT T) /
        compute_density p1 (normalizeT T) phi VAPOR_PRESSURE)
      ((if length_unit = "mm" then d_orifice / 1000 else d_orifice) ^ 2 / 4 * Real.pi)
      c).C_guess0 = c := fun c => rfl
  refine loopGo_last_shape _ hstep 1000 0 C_guess residuum none (by omega) ?_ out ?_
  · intro o ho
    exact absurd ho (by simp)
  · exact h

/-- C3: the solver's fixed-point iteration executes at most 1000 passes for
every input, and whenever it stops with the mean residual still above
`eps_res = 1e-4` (the non-convergence exit, which prints a warning) it has
run at least one pass, so `compute_volume_flow_rate` still returns the
current best-effort tuple instead of raising (`d_orifice < d_pipe` is the
geometry precondition, without which `compute_beta` raises first). -/
theorem claim3_iteration_cap (beta : ℝ) (dp : List ℝ) (d_orifice d_pipe : ℝ)
    (length_unit : String) (p1 T phi kappa C_guess residuum : ℝ) :
    (cvfr_state beta dp d_orifice d_pipe length_unit p1 T phi kappa C_guess residuum).j
        ≤ 1000 ∧
    (d_orifice < d_pipe →
      eps_res < (cvfr_state (d_orifice / d_pipe) dp d_orifice d_pipe length_unit
          p1 T phi kappa C_guess residuum).residuum →
      ∃ out, compute_volume_flow_rate dp d_orifice d_pipe length_unit
          p1 T phi kappa C_guess residuum = Except.ok out) := by
  constructor
  · unfold cvfr_state
    exact loopGo_j_le _ 1000 0 _ _ _ (by omega) (by omega)
  · intro hd hres
    obtain ⟨w, hw⟩ := compute_beta_ok_of_lt d_orifice d_pipe length_unit hd
    simp only [compute_volume_flow_rate, hw, cvfr_rest]
    have hsome : ((cvfr_state (d_orifice / d_pipe) dp d_orifice d_pipe length_unit
        p1 T phi kappa C_guess residuum).last).isSome = true := by
      simp only [cvfr_state] at hres ⊢
      exact loopGo_some_of_residuum _ 1000 0 _ _ _ (by omega) hres
    obtain ⟨out, hout⟩ := Option.isSome_iff_exists.1 hsome
    rw [hout]
    exact ⟨_, rfl⟩

/-- C3 witness: the iteration-count bound evaluated at a standard input. -/
theorem claim3_iteration_cap_witness :
    (cvfr_state 0.5 [5000] 50 100 "mm" 200000 293.15 0 1.4 0.62 0.1).j ≤ 1000 :=
  (claim3_iteration_cap 0.5 [5000] 50 100 "mm" 200000 293.15 0 1.4 0.62 0.1).1

/-- C9: when the residual seed is already at most `eps_res = 1e-4`, the
`while` condition is false at entry, the body never runs (`j = 0`, nothing
assigned), and `compute_volume_flow_rate` raises the `NameError` for the
never-assigned `C` at line 300 instead of returning a tuple
(`d_orifice < d_pipe` keeps `compute_beta` from raising first). -/
theorem claim9_low_residuum_seed (beta : ℝ) (dp : List ℝ) (d_orifice d_pipe : ℝ)
    (length_unit : String) (p1 T phi kappa C_guess residuum : ℝ)
    (hr : residuum ≤ eps_res) :
    (cvfr_state beta dp d_orifice d_pipe length_unit p1 T phi kappa C_guess residuum).j
        = 0 ∧
    (cvfr_state beta dp d_orifice d_pipe length_unit p1 T phi kappa C_guess residuum).last
        = none ∧
    (d_orifice < d_pipe →
      compute_volume_flow_rate dp d_orifice d_pipe length_unit p1 T phi kappa
          C_guess residuum = Except.error "NameError: name C is not defined") := by
  have hstate : ∀ b : ℝ, cvfr_state b dp d_orifice d_pipe length_unit p1 T phi kappa
      C_guess residuum = ⟨C_guess, residuum, 0, none⟩ := by
    intro b
    unfold cvfr_state
    rw [loopGo, if_pos hr]
  refine ⟨by rw [hstate beta], by rw [hstate beta], ?_⟩
  intro hd
  obtain ⟨w, hw⟩ := compute_beta_ok_of_lt d_orifice d_pipe length_unit hd
  simp only [compute_volume_flow_rate, hw, cvfr_rest, hstate (d_orifice / d_pipe)]

/-- C9 witness: a residual seed of `5e-5 ≤ 1e-4` at otherwise-standard inputs
leaves the loop unentered and the solver raises. -/
theorem claim9_low_residuum_seed_witness :
    (cvfr_state 0.5 [5000] 50 100 "mm" 200000 293.15 0 1.4 0.62 0.00005).j = 0 ∧
    (cvfr_state 0.5 [5000] 50 100 "mm" 200000 293.15 0 1.4 0.62 0.00005).last = none ∧
    compute_volume_flow_rate [5000] 50 100 "mm" 200000 293.15 0 1.4 0.62 0.00005 =
      Except.error "NameError: name C is not defined" :=
  have h := claim9_low_residuum_seed 0.5 [5000] 50 100 "mm" 200000 293.15 0 1.4 0.62
    0.00005 (by norm_num [eps_res])
  ⟨h.1, h.2.1, h.2.2 (by norm_num)⟩

/-- `compute_beta` tests only `unit == "m"`, so any other unit string is
treated exactly like millimetres in the advisory bound checks. -/
lemma compute_beta_unit_mm (d D : ℝ) (u m : String) (hu : u ≠ "m") :
    compute_beta d D u m = compute_beta d D "mm" m := by
  simp [compute_beta, hu]

/-- the solver's own unit handling tests only `length_unit == "mm"`, so any
other unit string leaves the diameters unconverted, exactly like `"m"`. -/
lemma cvfr_state_unit (b : ℝ) (dp : List ℝ) (dor dpi : ℝ) (u : String)
    (p1 T phi kappa Cg r : ℝ) (hu : u ≠ "mm") :
    cvfr_state b dp dor dpi u p1 T phi kappa Cg r =
      cvfr_state b dp dor dpi "m" p1 T phi kappa Cg r := by
  simp [cvfr_state, hu]

/-- C10: a `length_unit` other than `"mm"` and `"m"` is not rejected:
`compute_beta` interprets the unconverted numbers as millimetres for its
advisory checks (first conjunct), while the solver leaves the diameters
unconverted, i.e. treats them as meters, so the numeric result equals the
`length_unit = "m"` call (second conjunct). -/
theorem claim10_unknown_length_unit (dp : List ℝ) (dor dpi p1 T phi kappa Cg r : ℝ)
    (unit : String) (h1 : unit ≠ "mm") (h2 : unit ≠ "m") :
    compute_beta dor dpi unit "flange" = compute_beta dor dpi "mm" "flange" ∧
    compute_volume_flow_rate dp dor dpi unit p1 T phi kappa Cg r =
      compute_volume_flow_rate dp dor dpi "m" p1 T phi kappa Cg r := by
  refine ⟨compute_beta_unit_mm dor dpi unit "flange" h2, ?_⟩
  rcases le_or_lt dpi dor with h | h
  · unfold compute_volume_flow_rate
    rw [compute_beta_error_of_le dor dpi unit "flange" h,
      compute_beta_error_of_le dor dpi "m" "flange" h]
  · obtain ⟨w1, hw1⟩ := compute_beta_ok_of_lt dor dpi unit h
    obtain ⟨w2, hw2⟩ := compute_beta_ok_of_lt dor dpi "m" h
    simp only [compute_volume_flow_rate, hw1, hw2]
    unfold cvfr_rest
    rw [cvfr_state_unit (dor / dpi) dp dor dpi unit p1 T phi kappa Cg r h1]

/-- C10 witness: `length_unit = "inch"` behaves like millimetres in
`compute_beta`'s checks and like meters in the solver. -/
theorem claim10_unknown_length_unit_witness :
    compute_beta 50 100 "inch" "flange" = compute_beta 50 100 "mm" "flange" ∧
    compute_volume_flow_rate [5000] 50 100 "inch" 200000 293.15 0 1.4 0.62 0.1 =
      compute_volume_flow_rate [5000] 50 100 "m" 200000 293.15 0 1.4 0.62 0.1 :=
  claim10_unknown_length_unit [5000] 50 100 200000 293.15 0 1.4 0.62 0.1 "inch"
    (by decide) (by decide)

/-! ## Shared lemmas for the uncertainty envelope (C1) -/

end DinEnIso5167
